import Mathlib

/-!
Shallow embedding of the game-state engine of `src/main.py` (the
Phantoms Grasp text adventure): the room/item data model, the query
helpers (`check_key`, `format_passages`, `get_new_room_number`), the
closures of `main` (`describe_room`, `show_inventory`, `validate_exit`)
and the command-dispatch loop body, modelled as a pure step function on
an explicit session state.  Machine integers are `Nat`/`Int`; the held
sentinel is the literal 999 as in the source; the Python `dict` of exits
is an insertion-ordered association list.
-/

namespace PhantomsGrasp

/-- `INVENTORY_LIMIT` from main.py (compared against the `items_held`
counter, a Python int, hence `Int` here). -/
def INVENTORY_LIMIT : Int := 3

/-- `VALID_DIRECTIONS` from main.py. -/
def VALID_DIRECTIONS : List String :=
  ["north", "east", "south", "west", "up", "down"]

/-- The `Item` / `Key` class hierarchy as a tagged variant: a `Key`
additionally carries the `rooms_unlocked` list. -/
inductive ItemKind where
  | plain : ItemKind
  | key (rooms_unlocked : List Nat) : ItemKind
deriving DecidableEq

/-- The `Item` class of main.py.  `location` is a map index, with 999
the in-inventory sentinel. -/
structure Item where
  name : String
  description : String
  location : Nat
  is_held : Bool
  provides_light : Bool
  kind : ItemKind
deriving DecidableEq

/-- The `Room` class of main.py.  `exits` maps direction names to room
numbers (Python dict, modelled as an insertion-ordered association
list with unique keys). -/
structure Room where
  number : Nat
  name : String
  description : String
  is_lit : Bool
  is_locked : Bool
  exits : List (String × Nat)
deriving DecidableEq

/-- Placeholder room used for out-of-range list indexing (Python would
raise `IndexError` there; in-range behaviour is unaffected). -/
def defaultRoom : Room :=
  { number := 0, name := "", description := "", is_lit := true,
    is_locked := false, exits := [] }

/-- The two control states of the loop in `main`: `leave = False`
(exploring) and `leave = True` (won, loop over). -/
inductive GameStatus where
  | exploring : GameStatus
  | won : GameStatus
deriving DecidableEq

/-- The mutable session state of `main`: the room list `game_map`, the
item list `items`, the `current_room` index, the `entrance_room` index
from the map metadata, the `items_held` counter and the loop flag. -/
structure GameState where
  game_map : List Room
  items : List Item
  current_room : Nat
  entrance_room : Nat
  items_held : Int
  status : GameStatus
deriving DecidableEq

/-- The per-item test of `check_key` in main.py: a held `Key` whose
`rooms_unlocked` contains the target room. -/
def isHeldKeyFor (room_number : Nat) (item : Item) : Bool :=
  match item.kind with
  | ItemKind.key rooms_unlocked =>
      item.location == 999 && rooms_unlocked.contains room_number
  | ItemKind.plain => false

/-- `check_key` from main.py: some held key unlocks `room_number`. -/
def check_key (room_number : Nat) (items : List Item) : Bool :=
  items.any (fun item => isHeldKeyFor room_number item)

/-- `format_passages` from main.py. -/
def format_passages (exits : List (String × Nat)) : String :=
  if exits.isEmpty then
    "There are no visible exits from the room."
  else
    let directions := exits.map (fun e => e.1)
    if directions.length == 1 then
      "There is a passage out of the room going " ++ directions.headD "" ++ "."
    else if directions.length == 2 then
      "There are passages out of the room going " ++ directions.headD ""
        ++ " and " ++ (directions.drop 1).headD "" ++ "."
    else
      "There are passages out of the room going "
        ++ String.intercalate ", " directions.dropLast
        ++ " and " ++ directions.getLastD "" ++ "."

/-- Python `str.lower()`: semantically `String.toLower`, written over
the character list so that it evaluates inside the kernel. -/
def strLower (s : String) : String := String.mk (s.data.map Char.toLower)

/-- Python `direction in exits` / `exits[direction]` on the exit dict:
first binding of the key in the association list. -/
def lookup_exit : List (String × Nat) → String → Option Nat
  | [], _ => none
  | (d, r) :: rest, dir => if d == dir then some r else lookup_exit rest dir

/-- `get_new_room_number` from main.py: lower-cases the direction,
rejects non-canonical directions and absent exits with a message and
the -1 sentinel, otherwise returns the destination room number.
The second component is the text printed. -/
def get_new_room_number (game_map : List Room) (current_room_num : Nat)
    (direction : String) : Int × List String :=
  let dir := strLower direction
  if !(VALID_DIRECTIONS.contains dir) then
    (-1, ["\x27" ++ dir ++ "\x27 is not a valid direction."])
  else
    let current_room := game_map.getD current_room_num defaultRoom
    match lookup_exit current_room.exits dir with
    | some n => ((n : Int), [])
    | none => (-1, ["You can\x27t go " ++ dir ++ " from here."])

/-- The `describe_room` closure in `main`: dark message only when the
room is unlit and no held item provides light, else name, description,
one line per item in the room, and the passage list. -/
def describe_room (st : GameState) : List String :=
  let player_light :=
    st.items.any (fun item => item.provides_light && item.location == 999)
  let room := st.game_map.getD st.current_room defaultRoom
  if !room.is_lit && !player_light then
    ["This is a dark room. You can\x27t see anything."]
  else
    [room.name, room.description]
      ++ (st.items.filter (fun item => item.location == st.current_room)).map
          (fun item => "There is a " ++ item.name ++ " here.")
      ++ [format_passages room.exits]

/-- The `show_inventory` closure in `main`. -/
def show_inventory (items : List Item) : List String :=
  let held_lines := (items.filter (fun item => item.location == 999)).map
      (fun item => "- " ++ item.name)
  ["You are carrying:"]
    ++ (if held_lines.isEmpty then ["Nothing"] else held_lines) ++ [""]

/-- The `validate_exit` closure in `main`: an item named exactly
`"Aura"` is held. -/
def validate_exit (items : List Item) : Bool :=
  items.any (fun item => item.name == "Aura" && item.location == 999)

/-- The match test of the pickup loop in `main`: item in the current
room whose lower-cased name equals the (already lower-cased) argument. -/
def pickMatch (current_room : Nat) (item_name : String) (item : Item) : Bool :=
  item.location == current_room && strLower item.name == item_name

/-- The match test of the drop loop in `main`: held item whose
lower-cased name equals the argument. -/
def dropMatch (item_name : String) (item : Item) : Bool :=
  item.location == 999 && strLower item.name == item_name

/-- Text printed by the for-else branch of the pickup loop in `main`. -/
def no_such_item_out : List String :=
  ["No such item here.",
   "Hint: Enter the full name of the item, eg. \x27rusty key\x27 instead of \x27key\x27."]

/-- Text printed by the pickup loop when the inventory is full. -/
def carrying_too_much_out : List String :=
  ["You\x27re carrying too much. Drop an item to pick it up."]

/-- The `pickup` for-loop of `main`: walk the item list, act on the
first item matching `pickMatch` (move it to 999 and increment the
counter if below `INVENTORY_LIMIT`, else complain), and fall through to
the for-else message when nothing matches.  Returns the new item list,
the new counter and the printed text. -/
def do_pickup (current_room : Nat) (items_held : Int) (item_name : String) :
    List Item → List Item × Int × List String
  | [] => ([], items_held, no_such_item_out)
  | item :: rest =>
    if pickMatch current_room item_name item then
      if items_held < INVENTORY_LIMIT then
        ({ item with location := 999 } :: rest, items_held + 1,
          ["You picked up the " ++ item.name ++ "."])
      else
        (item :: rest, items_held, carrying_too_much_out)
    else
      let r := do_pickup current_room items_held item_name rest
      (item :: r.1, r.2.1, r.2.2)

/-- The `drop` for-loop of `main`: move the first held item matching
`dropMatch` to the current room and decrement the counter, else the
for-else message. -/
def do_drop (current_room : Nat) (items_held : Int) (item_name : String) :
    List Item → List Item × Int × List String
  | [] => ([], items_held, ["You\x27re not carrying that."])
  | item :: rest =>
    if dropMatch item_name item then
      ({ item with location := current_room } :: rest, items_held - 1,
        ["You dropped the " ++ item.name ++ "."])
    else
      let r := do_drop current_room items_held item_name rest
      (item :: r.1, r.2.1, r.2.2)

/-- Python `" ".join(command[1:])` on the argument tokens. -/
def joinArgs : List String → String
  | [] => ""
  | [x] => x
  | x :: rest => x ++ " " ++ joinArgs rest

/-- The text printed after the loop ends in `Won` state. -/
def win_lines : List String :=
  ["The door opens, revealing the night sky outside.",
   "You have escaped.",
   "",
   "Congratulations! You won!"]

/-- Output of `show_help` in main.py, restricted to its static lines
(the version/OS/Python lines inspect the host platform and carry no
game state; no claim concerns them). -/
def show_help_output : List String :=
  ["Enter the following commands to perform actions.",
   "",
   "look - shows room name and description.",
   "go <direction: str> - travels in the specified direction.",
   "  Valid directions are \x27north\x27, \x27south\x27, \x27east\x27, \x27west\x27, \x27up\x27, \x27down\x27.",
   "pickup <item: str> - picks up the item.",
   "drop <item: str> - drops the item.",
   "inventory - shows inventory.",
   "leave - leaves house (only works at entrance).",
   "help - show this help message.",
   "Unknown command. Enter \x27help\x27 for commands."]

/-- One iteration of the `while not leave` loop body of `main`, on an
already tokenized command line.  Returns the new state and the printed
text; a session already in `Won` is terminal (the loop has ended). -/
def exec_command (st : GameState) (command : List String) :
    GameState × List String :=
  if st.status = GameStatus.won then (st, [])
  else
    match command with
    | [] => (st, ["Enter \x27help\x27 for help."])
    | cmd :: args =>
      if cmd == "look" then
        (st, describe_room st)
      else if cmd == "inventory" then
        (st, show_inventory st.items)
      else if cmd == "pickup" then
        if args.isEmpty then (st, ["Pickup what?"])
        else
          let item_name := joinArgs args
          let r := do_pickup st.current_room st.items_held item_name st.items
          ({ st with items := r.1, items_held := r.2.1 }, r.2.2)
      else if cmd == "drop" then
        if args.isEmpty then (st, ["Drop what?"])
        else
          let item_name := joinArgs args
          let r := do_drop st.current_room st.items_held item_name st.items
          ({ st with items := r.1, items_held := r.2.1 }, r.2.2)
      else if cmd == "go" then
        if args.isEmpty then (st, ["Go where?"])
        else
          let direction := args.headD ""
          let r := get_new_room_number st.game_map st.current_room direction
          if r.1 == -1 then (st, r.2)
          else
            let dest := r.1.toNat
            if (st.game_map.getD dest defaultRoom).is_locked
                && !(check_key dest st.items) then
              (st, r.2 ++ ["This room is locked. You need a key."])
            else
              let st2 := { st with current_room := dest }
              (st2, r.2 ++ describe_room st2
                ++ (if dest == st.entrance_room then
                      ["You have reached the entrance. Type \x27leave\x27 to exit."]
                    else []))
      else if cmd == "leave" then
        if st.current_room == st.entrance_room then
          if validate_exit st.items then
            ({ st with status := GameStatus.won }, win_lines)
          else
            (st, ["You don\x27t have enough aura to leave! Press Ctrl-C to force quit and lose."])
        else
          (st, ["You can\x27t leave from here."])
      else if cmd == "help" then
        (st, show_help_output)
      else
        (st, ["Unknown command. Enter \x27help\x27 for commands."])

/-- Whitespace splitter over a character list: accumulates the current
token (reversed) and emits non-empty tokens, like Python `str.split()`
with no argument. -/
def tokenizeChars : List Char → List Char → List String
  | [], acc => if acc.isEmpty then [] else [String.mk acc.reverse]
  | c :: cs, acc =>
    if c.isWhitespace then
      (if acc.isEmpty then [] else [String.mk acc.reverse]) ++ tokenizeChars cs []
    else tokenizeChars cs (c :: acc)

/-- Python `input("> ").strip().lower().split()`: lower-case the line
and split it on whitespace into non-empty tokens (stripping is
subsumed by dropping empty tokens). -/
def tokenize (line : String) : List String :=
  tokenizeChars (line.data.map Char.toLower) []

/-- One full turn of `main` on a raw input line. -/
def step (st : GameState) (line : String) : GameState × List String :=
  exec_command st (tokenize line)

/-- Iterating the loop of `main` over a list of input lines. -/
def run (st : GameState) (lines : List String) : GameState :=
  lines.foldl (fun s line => (step s line).1) st

/-- Number of items whose `location` is the held sentinel 999. -/
def heldCount (items : List Item) : Nat :=
  (items.filter (fun item => item.location == 999)).length

/-- World-definition sanity from the data model of the spec: every exit
destination is a real room index, in particular never the held
sentinel 999. -/
def map_ok (game_map : List Room) : Prop :=
  ∀ room ∈ game_map, ∀ e ∈ room.exits, e.2 ≠ 999

/-- Session-state sanity: the counter matches the held items, the
current room is not the held sentinel, and the map is sane. -/
def state_ok (st : GameState) : Prop :=
  st.items_held = (heldCount st.items : Int)
    ∧ st.current_room ≠ 999
    ∧ map_ok st.game_map

/-! Concrete sample world used to exercise the theorems: room 0 is the
entrance (lit, holds the win item "Aura" and a key for room 1), room 1
is locked, room 2 is dark and holds a lamp. -/

/-- Sample win item, named exactly "Aura", initially in room 0. -/
def auraItem : Item :=
  { name := "Aura", description := "A glowing aura.", location := 0,
    is_held := false, provides_light := false, kind := ItemKind.plain }

/-- Sample key item able to unlock room 1, initially in room 0. -/
def rustyKey : Item :=
  { name := "rusty key", description := "An old key.", location := 0,
    is_held := false, provides_light := false,
    kind := ItemKind.key [1] }

/-- Sample light source, initially in room 2. -/
def lampItem : Item :=
  { name := "lamp", description := "A bright lamp.", location := 2,
    is_held := false, provides_light := true, kind := ItemKind.plain }

/-- Sample entrance room. -/
def entranceRoom : Room :=
  { number := 0, name := "Entrance Hall", description := "A big hall.",
    is_lit := true, is_locked := false,
    exits := [("north", 1), ("east", 2)] }

/-- Sample locked room. -/
def lockedRoom : Room :=
  { number := 1, name := "Vault", description := "A locked vault.",
    is_lit := true, is_locked := true, exits := [("south", 0)] }

/-- Sample dark room. -/
def darkRoom : Room :=
  { number := 2, name := "Cellar", description := "A damp cellar.",
    is_lit := false, is_locked := false, exits := [("west", 0)] }

/-- Sample map. -/
def sampleMap : List Room := [entranceRoom, lockedRoom, darkRoom]

/-- Sample item registry. -/
def sampleItems : List Item := [auraItem, rustyKey, lampItem]

/-- Sample initial session: spawned at the entrance, nothing held. -/
def sampleState : GameState :=
  { game_map := sampleMap, items := sampleItems, current_room := 0,
    entrance_room := 0, items_held := 0, status := GameStatus.exploring }


/-- Spec-side restatement of the `format_passages` contract, written
from the spec/claim text: no exits, exactly one, exactly two, or three
or more (comma-joined all-but-last, then " and " plus the last), with
directions in exit-enumeration order. -/
def format_passages_spec (exits : List (String × Nat)) : String :=
  match exits.map (fun e => e.1) with
  | [] => "There are no visible exits from the room."
  | [d] => "There is a passage out of the room going " ++ d ++ "."
  | [d1, d2] =>
      "There are passages out of the room going " ++ d1 ++ " and " ++ d2 ++ "."
  | ds =>
      "There are passages out of the room going "
        ++ String.intercalate ", " ds.dropLast
        ++ " and " ++ ds.getLastD "" ++ "."

/-- A held item named "aura" (lower case), for the duplicate-name and
case-sensitivity scenarios. -/
def dupAuraHeld : Item :=
  { name := "aura", description := "A pale aura.", location := 999,
    is_held := true, provides_light := false, kind := ItemKind.plain }

/-- An item also named "aura", lying in room 0. -/
def dupAuraRoom : Item :=
  { name := "aura", description := "Another pale aura.", location := 0,
    is_held := false, provides_light := false, kind := ItemKind.plain }

/-- Session at the entrance holding `dupAuraHeld`, with `dupAuraRoom`
in the room: two items sharing the case-insensitive name "aura". -/
def dupState : GameState :=
  { game_map := [entranceRoom], items := [dupAuraHeld, dupAuraRoom],
    current_room := 0, entrance_room := 0, items_held := 1,
    status := GameStatus.exploring }

/-- Session at the entrance holding the item "Aura". -/
def wonReadyState : GameState :=
  { sampleState with
      items := [{ auraItem with location := 999 }, rustyKey, lampItem],
      items_held := 1 }

/-- Session at the entrance holding the key for room 1. -/
def keyHeldState : GameState :=
  { sampleState with
      items := [auraItem, { rustyKey with location := 999 }, lampItem],
      items_held := 1 }

/-- A held filler item. -/
def heldRock : Item :=
  { name := "rock", description := "A rock.", location := 999,
    is_held := true, provides_light := false, kind := ItemKind.plain }

/-- A held filler item. -/
def heldRope : Item :=
  { name := "rope", description := "A rope.", location := 999,
    is_held := true, provides_light := false, kind := ItemKind.plain }

/-- A held filler item. -/
def heldTorch : Item :=
  { name := "torch", description := "A torch.", location := 999,
    is_held := true, provides_light := false, kind := ItemKind.plain }

/-- Session at the entrance with the inventory already at capacity and
the "Aura" item still in the room. -/
def fullState : GameState :=
  { game_map := sampleMap,
    items := [heldRock, heldRope, heldTorch, auraItem],
    current_room := 0, entrance_room := 0, items_held := 3,
    status := GameStatus.exploring }

/-- Session holding two items both named "aura" (dropping matches the
first of them in load order). -/
def twoAuraState : GameState :=
  { game_map := [entranceRoom],
    items := [dupAuraHeld, { dupAuraRoom with location := 999 }],
    current_room := 0, entrance_room := 0, items_held := 2,
    status := GameStatus.exploring }

/-- Session spawned in the dark cellar with nothing held. -/
def darkSpawnState : GameState :=
  { sampleState with current_room := 2 }

end PhantomsGrasp

namespace PhantomsGrasp

lemma heldCount_append (a b : List Item) :
    heldCount (a ++ b) = heldCount a + heldCount b := by
  simp [heldCount, List.filter_append]

lemma heldCount_cons (x : Item) (l : List Item) :
    heldCount (x :: l) = heldCount l + (if x.location = 999 then 1 else 0) := by
  simp only [heldCount, List.filter_cons, beq_iff_eq]
  split <;> simp

lemma pickMatch_iff (cur : Nat) (nm : String) (x : Item) :
    pickMatch cur nm x = true ↔ x.location = cur ∧ strLower x.name = nm := by
  simp [pickMatch]

lemma dropMatch_iff (nm : String) (x : Item) :
    dropMatch nm x = true ↔ x.location = 999 ∧ strLower x.name = nm := by
  simp [dropMatch]

lemma do_pickup_delta (cur : Nat) (held : Int) (nm : String) (hcur : cur ≠ 999)
    (items : List Item) :
    (do_pickup cur held nm items).2.1 + (heldCount items : Int)
      = held + (heldCount (do_pickup cur held nm items).1 : Int) := by
  induction items with
  | nil => simp [do_pickup]
  | cons item rest ih =>
    by_cases hm : pickMatch cur nm item
    · have hloc : item.location = cur := ((pickMatch_iff cur nm item).1 hm).1
      by_cases hl : held < INVENTORY_LIMIT
      · simp [do_pickup, hm, hl, heldCount_cons, hloc, hcur]
        omega
      · simp [do_pickup, hm, hl]
    · simp only [do_pickup, Bool.not_eq_true] at *
      simp only [hm, Bool.false_eq_true, if_false]
      simp only [heldCount_cons]
      split <;> omega

lemma do_drop_delta (cur : Nat) (held : Int) (nm : String) (hcur : cur ≠ 999)
    (items : List Item) :
    (do_drop cur held nm items).2.1 + (heldCount items : Int)
      = held + (heldCount (do_drop cur held nm items).1 : Int) := by
  induction items with
  | nil => simp [do_drop]
  | cons item rest ih =>
    by_cases hm : dropMatch nm item
    · have hloc : item.location = 999 := ((dropMatch_iff nm item).1 hm).1
      simp [do_drop, hm, heldCount_cons, hloc, hcur]
    · simp only [do_drop, Bool.not_eq_true] at *
      simp only [hm, Bool.false_eq_true, if_false]
      simp only [heldCount_cons]
      split <;> omega

lemma do_pickup_success (cur : Nat) (held : Int) (nm : String)
    (pre : List Item) (b : Item) (post : List Item)
    (hpre : ∀ x ∈ pre, pickMatch cur nm x = false)
    (hb : pickMatch cur nm b = true) (hheld : held < INVENTORY_LIMIT) :
    do_pickup cur held nm (pre ++ b :: post)
      = (pre ++ { b with location := 999 } :: post, held + 1,
         ["You picked up the " ++ b.name ++ "."]) := by
  induction pre with
  | nil => simp [do_pickup, hb, hheld]
  | cons x xs ih =>
    have hx : pickMatch cur nm x = false := hpre x (by simp)
    have ih' := ih (fun y hy => hpre y (by simp [hy]))
    simp [do_pickup, hx, ih']

lemma do_pickup_full (cur : Nat) (held : Int) (nm : String)
    (pre : List Item) (b : Item) (post : List Item)
    (hpre : ∀ x ∈ pre, pickMatch cur nm x = false)
    (hb : pickMatch cur nm b = true) (hheld : ¬ held < INVENTORY_LIMIT) :
    do_pickup cur held nm (pre ++ b :: post)
      = (pre ++ b :: post, held, carrying_too_much_out) := by
  induction pre with
  | nil => simp [do_pickup, hb, hheld]
  | cons x xs ih =>
    have hx : pickMatch cur nm x = false := hpre x (by simp)
    have ih' := ih (fun y hy => hpre y (by simp [hy]))
    simp [do_pickup, hx, ih']

lemma do_drop_success (cur : Nat) (held : Int) (nm : String)
    (pre : List Item) (b : Item) (post : List Item)
    (hpre : ∀ x ∈ pre, dropMatch nm x = false)
    (hb : dropMatch nm b = true) :
    do_drop cur held nm (pre ++ b :: post)
      = (pre ++ { b with location := cur } :: post, held - 1,
         ["You dropped the " ++ b.name ++ "."]) := by
  induction pre with
  | nil => simp [do_drop, hb]
  | cons x xs ih =>
    have hx : dropMatch nm x = false := hpre x (by simp)
    have ih' := ih (fun y hy => hpre y (by simp [hy]))
    simp [do_drop, hx, ih']

lemma lookup_exit_mem (exits : List (String × Nat)) (dir : String) (r : Nat)
    (h : lookup_exit exits dir = some r) : ∃ d, (d, r) ∈ exits := by
  induction exits with
  | nil => simp [lookup_exit] at h
  | cons e rest ih =>
    obtain ⟨d, v⟩ := e
    simp only [lookup_exit] at h
    by_cases hd : d == dir
    · rw [if_pos hd] at h
      exact ⟨d, by simp [Option.some_inj.1 h]⟩
    · rw [if_neg hd] at h
      obtain ⟨d2, hmem⟩ := ih h
      exact ⟨d2, by simp [hmem]⟩

lemma get_new_room_number_eq (gm : List Room) (cur : Nat) (dir : String) :
    get_new_room_number gm cur dir
      = if VALID_DIRECTIONS.contains (strLower dir) then
          (match lookup_exit (gm.getD cur defaultRoom).exits (strLower dir) with
           | some n => ((n : Int), [])
           | none => (-1, ["You can\x27t go " ++ strLower dir ++ " from here."]))
        else (-1, ["\x27" ++ strLower dir ++ "\x27 is not a valid direction."]) := by
  unfold get_new_room_number
  by_cases hv : VALID_DIRECTIONS.contains (strLower dir) <;> simp [hv]

lemma go_dest_ne_999 (gm : List Room) (cur : Nat) (dir : String)
    (hmap : map_ok gm) :
    (get_new_room_number gm cur dir).1 = -1
      ∨ (get_new_room_number gm cur dir).1.toNat ≠ 999 := by
  rw [get_new_room_number_eq]
  cases hv : VALID_DIRECTIONS.contains (strLower dir) with
  | false => left; simp
  | true =>
    simp only [eq_self_iff_true, if_true]
    cases h : lookup_exit (gm.getD cur defaultRoom).exits (strLower dir) with
    | none => left; rfl
    | some n =>
      right
      obtain ⟨d, hmem⟩ := lookup_exit_mem _ _ _ h
      by_cases hlen : cur < gm.length
      · have hroom : gm.getD cur defaultRoom = gm[cur] := by
          simp [List.getD_eq_getElem?_getD, List.getElem?_eq_getElem hlen]
        rw [hroom] at hmem
        have := hmap gm[cur] (List.getElem_mem hlen) (d, n) hmem
        simpa using this
      · have hroom : gm.getD cur defaultRoom = defaultRoom := by
          simp [List.getD_eq_getElem?_getD,
            List.getElem?_eq_none (Nat.le_of_not_lt hlen)]
        rw [hroom] at hmem
        simp [defaultRoom] at hmem

/-- Case analysis on the state component returned by one loop
iteration: the state is unchanged, or the win flag is set, or a pickup
or drop rewrote the item list and counter, or a successful `go` moved
the player to the resolved destination. -/
lemma exec_command_fst (st : GameState) (c : List String) :
    (exec_command st c).1 = st
      ∨ (exec_command st c).1 = { st with status := GameStatus.won }
      ∨ (∃ nm,
          (exec_command st c).1
            = { st with
                items := (do_pickup st.current_room st.items_held nm st.items).1,
                items_held :=
                  (do_pickup st.current_room st.items_held nm st.items).2.1 })
      ∨ (∃ nm,
          (exec_command st c).1
            = { st with
                items := (do_drop st.current_room st.items_held nm st.items).1,
                items_held :=
                  (do_drop st.current_room st.items_held nm st.items).2.1 })
      ∨ (∃ dir,
          (get_new_room_number st.game_map st.current_room dir).1 ≠ -1
          ∧ (exec_command st c).1
              = { st with current_room :=
                    (get_new_room_number st.game_map st.current_room dir).1.toNat }) := by
  by_cases hw : st.status = GameStatus.won
  · left; simp [exec_command, hw]
  · cases c with
    | nil => left; simp [exec_command, hw]
    | cons cmd args =>
      by_cases h1 : cmd == "look"
      · left; simp [exec_command, hw, h1]
      · by_cases h2 : cmd == "inventory"
        · left; simp [exec_command, hw, h1, h2]
        · by_cases h3 : cmd == "pickup"
          · by_cases ha : args = []
            · left; simp [exec_command, hw, h1, h2, h3, ha]
            · right; right; left
              exact ⟨joinArgs args, by simp [exec_command, hw, h1, h2, h3, ha]⟩
          · by_cases h4 : cmd == "drop"
            · by_cases ha : args = []
              · left; simp [exec_command, hw, h1, h2, h3, h4, ha]
              · right; right; right; left
                exact ⟨joinArgs args,
                  by simp [exec_command, hw, h1, h2, h3, h4, ha]⟩
            · by_cases h5 : cmd == "go"
              · by_cases ha : args = []
                · left; simp [exec_command, hw, h1, h2, h3, h4, h5, ha]
                · by_cases hr : (get_new_room_number st.game_map st.current_room
                      (args.head?.getD "")).1 = -1
                  · left
                    simp [exec_command, hw, h1, h2, h3, h4, h5, ha, hr]
                  · by_cases hlock :
                        (st.game_map[(get_new_room_number st.game_map
                              st.current_room (args.head?.getD "")).1.toNat]?.getD
                            defaultRoom).is_locked = true
                          ∧ check_key (get_new_room_number st.game_map
                              st.current_room (args.head?.getD "")).1.toNat
                              st.items = false
                    · left
                      simp [exec_command, hw, h1, h2, h3, h4, h5, ha, hr, hlock]
                    · right; right; right; right
                      refine ⟨args.head?.getD "", hr, ?_⟩
                      simp [exec_command, hw, h1, h2, h3, h4, h5, ha, hr, hlock]
              · by_cases h6 : cmd == "leave"
                · by_cases hat : st.current_room = st.entrance_room
                  · by_cases hval : validate_exit st.items
                    · right; left
                      simp [exec_command, hw, h1, h2, h3, h4, h5, h6, hat, hval]
                    · left
                      simp [exec_command, hw, h1, h2, h3, h4, h5, h6, hat, hval]
                  · left
                    simp [exec_command, hw, h1, h2, h3, h4, h5, h6, hat]
                · by_cases h7 : cmd == "help"
                  · left; simp [exec_command, hw, h1, h2, h3, h4, h5, h6, h7]
                  · left; simp [exec_command, hw, h1, h2, h3, h4, h5, h6, h7]

/-- One loop iteration preserves session-state sanity: the held counter
stays equal to the number of held items, the current room never becomes
the sentinel, and the map is untouched. -/
lemma exec_preserves_state_ok (st : GameState) (c : List String)
    (h : state_ok st) : state_ok (exec_command st c).1 := by
  obtain ⟨hheld, hcur, hmap⟩ := h
  rcases exec_command_fst st c with heq | heq | ⟨nm, heq⟩ | ⟨nm, heq⟩
    | ⟨dir, hne, heq⟩
  · rw [heq]; exact ⟨hheld, hcur, hmap⟩
  · rw [heq]; exact ⟨hheld, hcur, hmap⟩
  · rw [heq]
    have hd := do_pickup_delta st.current_room st.items_held nm hcur st.items
    refine ⟨?_, hcur, hmap⟩
    show (do_pickup st.current_room st.items_held nm st.items).2.1
      = (heldCount (do_pickup st.current_room st.items_held nm st.items).1 : Int)
    omega
  · rw [heq]
    have hd := do_drop_delta st.current_room st.items_held nm hcur st.items
    refine ⟨?_, hcur, hmap⟩
    show (do_drop st.current_room st.items_held nm st.items).2.1
      = (heldCount (do_drop st.current_room st.items_held nm st.items).1 : Int)
    omega
  · rw [heq]
    refine ⟨hheld, ?_, hmap⟩
    rcases go_dest_ne_999 st.game_map st.current_room dir hmap with h9 | h9
    · exact absurd h9 hne
    · exact h9

/-- Session-state sanity is preserved by any sequence of input lines. -/
lemma run_preserves_state_ok (st : GameState) (lines : List String)
    (h : state_ok st) : state_ok (run st lines) := by
  induction lines generalizing st with
  | nil => simpa [run]
  | cons l rest ih =>
    have hstep : run st (l :: rest) = run (step st l).1 rest := by
      simp [run]
    rw [hstep]
    exact ih _ (exec_preserves_state_ok st (tokenize l) h)

/-- Claim C3: in every state reachable from a sane initial state by any
sequence of input lines, the `items_held` counter equals the number of
items whose location is the held sentinel 999; in particular every
pickup and drop preserves this equality. -/
theorem C3_held_count_invariant (st : GameState) (lines : List String)
    (hmap : map_ok st.game_map) (hcur : st.current_room ≠ 999)
    (hheld : st.items_held = (heldCount st.items : Int)) :
    (run st lines).items_held = (heldCount (run st lines).items : Int) :=
  (run_preserves_state_ok st lines ⟨hheld, hcur, hmap⟩).1

/-- The C3 invariant instantiated on the sample world and a concrete
play (pick up the aura, then walk east into the dark room). -/
theorem C3_held_count_invariant_witness :
    (run sampleState ["pickup aura", "go east"]).items_held
      = (heldCount (run sampleState ["pickup aura", "go east"]).items : Int) :=
  C3_held_count_invariant sampleState ["pickup aura", "go east"]
    (by unfold map_ok; decide) (by decide) (by decide)

end PhantomsGrasp

namespace PhantomsGrasp

lemma validate_exit_iff (items : List Item) :
    validate_exit items = true
      ↔ ∃ i ∈ items, i.name = "Aura" ∧ i.location = 999 := by
  simp [validate_exit]

lemma exec_game_map (st : GameState) (c : List String) :
    (exec_command st c).1.game_map = st.game_map := by
  rcases exec_command_fst st c with heq | heq | ⟨nm, heq⟩ | ⟨nm, heq⟩
    | ⟨dir, hne, heq⟩ <;> rw [heq]

lemma first_match_decomp (p : Item → Bool) (l : List Item)
    (h : ∃ x ∈ l, p x = true) :
    ∃ pre b post, l = pre ++ b :: post
      ∧ (∀ x ∈ pre, p x = false) ∧ p b = true := by
  induction l with
  | nil => simp at h
  | cons a rest ih =>
    by_cases hpa : p a
    · exact ⟨[], a, rest, rfl, by simp, hpa⟩
    · have h' : ∃ x ∈ rest, p x = true := by
        rcases h with ⟨x, hx, hpx⟩
        rcases List.mem_cons.1 hx with hxa | hxr
        · exact absurd (hxa ▸ hpx) hpa
        · exact ⟨x, hxr, hpx⟩
      obtain ⟨pre, b, post, he, hc, hb⟩ := ih h'
      refine ⟨a :: pre, b, post, by simp [he], ?_, hb⟩
      intro x hx
      rcases List.mem_cons.1 hx with hxa | hxr
      · subst hxa; simpa using hpa
      · exact hc x hxr

/-- Claim C1: `leave` anywhere but the entrance room prints only the
refusal and changes nothing; at the entrance with an item named "Aura"
held it transitions the session to `Won` (a terminal state); at the
entrance without such an item it prints the non-fatal feedback and the
session stays unchanged in `Exploring`. -/
theorem C1_leave (st : GameState) (hst : st.status = GameStatus.exploring) :
    (st.current_room ≠ st.entrance_room →
      exec_command st ["leave"] = (st, ["You can\x27t leave from here."]))
    ∧ (st.current_room = st.entrance_room →
      (∃ i ∈ st.items, i.name = "Aura" ∧ i.location = 999) →
      exec_command st ["leave"]
        = ({ st with status := GameStatus.won }, win_lines))
    ∧ (st.current_room = st.entrance_room →
      (∀ i ∈ st.items, ¬(i.name = "Aura" ∧ i.location = 999)) →
      exec_command st ["leave"]
        = (st, ["You don\x27t have enough aura to leave! Press Ctrl-C to force quit and lose."]))
    ∧ (∀ st2 : GameState, st2.status = GameStatus.won →
      ∀ c, exec_command st2 c = (st2, [])) := by
  refine ⟨?_, ?_, ?_, ?_⟩
  · intro hne
    simp [exec_command, hst, hne]
  · intro hat hex
    have hval : validate_exit st.items = true := (validate_exit_iff _).2 hex
    simp [exec_command, hst, hat, hval]
  · intro hat hnone
    have hval : validate_exit st.items = false := by
      rw [← Bool.not_eq_true, validate_exit_iff]
      rintro ⟨i, hi, hn, hl⟩
      exact hnone i hi ⟨hn, hl⟩
    simp [exec_command, hst, hat, hval]
  · intro st2 hw c
    simp [exec_command, hw]

/-- C1 exercised concretely: without "Aura" held, `leave` at the
entrance keeps the state; holding "Aura", `leave` wins. -/
theorem C1_leave_witness :
    exec_command sampleState ["leave"]
      = (sampleState, ["You don\x27t have enough aura to leave! Press Ctrl-C to force quit and lose."])
    ∧ exec_command wonReadyState ["leave"]
      = ({ wonReadyState with status := GameStatus.won }, win_lines) :=
  ⟨(C1_leave sampleState rfl).2.2.1 rfl (by decide),
   (C1_leave wonReadyState rfl).2.1 rfl (by decide)⟩

end PhantomsGrasp

namespace PhantomsGrasp

/-- Claim C2: a `go` whose direction resolves to a locked destination
is refused with the locked-room feedback and no movement unless a held
key unlocks the destination, in which case the player moves in; in
either case the `locked` flag of the destination room is still true
afterwards. -/
theorem C2_locked_room (st : GameState) (dir : String) (d : Nat)
    (hst : st.status = GameStatus.exploring)
    (hres : get_new_room_number st.game_map st.current_room dir
      = ((d : Int), []))
    (hlock : (st.game_map.getD d defaultRoom).is_locked = true) :
    (check_key d st.items = false →
      exec_command st ["go", dir]
        = (st, ["This room is locked. You need a key."]))
    ∧ (check_key d st.items = true →
      (exec_command st ["go", dir]).1.current_room = d)
    ∧ ((exec_command st ["go", dir]).1.game_map.getD d defaultRoom).is_locked
        = true := by
  have hne : ¬ ((d : Int) = -1) := by omega
  have hlock2 : (st.game_map[d]?.getD defaultRoom).is_locked = true := by
    rw [← List.getD_eq_getElem?_getD]; exact hlock
  refine ⟨?_, ?_, ?_⟩
  · intro hkey
    simp [exec_command, hst, hres, hne, hlock2, hkey]
  · intro hkey
    simp [exec_command, hst, hres, hne, hlock2, hkey]
  · rw [exec_game_map]
    exact hlock

/-- C2 exercised concretely: going north from the entrance into the
locked vault fails without the key and succeeds holding it; the vault
stays flagged locked. -/
theorem C2_locked_room_witness :
    (exec_command sampleState ["go", "north"]
      = (sampleState, ["This room is locked. You need a key."]))
    ∧ (exec_command keyHeldState ["go", "north"]).1.current_room = 1 :=
  ⟨(C2_locked_room sampleState "north" 1 rfl (by decide) (by decide)).1
      (by decide),
   (C2_locked_room keyHeldState "north" 1 rfl (by decide) (by decide)).2.1
      (by decide)⟩

end PhantomsGrasp

namespace PhantomsGrasp

/-- Claim C4: a pickup naming an item present in the current room (the
first match after a match-free prefix) fails with the "carrying too
much" feedback and changes nothing when the held count is already at
`INVENTORY_LIMIT`; below the limit, the location of that item becomes the
held sentinel and the counter increases by one. -/
theorem C4_pickup_capacity (st : GameState) (nm : String)
    (pre post : List Item) (b : Item)
    (hst : st.status = GameStatus.exploring)
    (hitems : st.items = pre ++ b :: post)
    (hpre : ∀ x ∈ pre, pickMatch st.current_room nm x = false)
    (hb : pickMatch st.current_room nm b = true) :
    (st.items_held = INVENTORY_LIMIT →
      exec_command st ["pickup", nm] = (st, carrying_too_much_out))
    ∧ (st.items_held < INVENTORY_LIMIT →
      exec_command st ["pickup", nm]
        = ({ st with
              items := (pre ++ { b with location := 999 } :: post),
              items_held := st.items_held + 1 },
           ["You picked up the " ++ b.name ++ "."])) := by
  have hw : ¬ st.status = GameStatus.won := by rw [hst]; simp
  constructor
  · intro hcap
    have hnl : ¬ st.items_held < INVENTORY_LIMIT := by
      rw [hcap]; exact lt_irrefl _
    have hdp := do_pickup_full st.current_room st.items_held nm
      pre b post hpre hb hnl
    rw [← hitems] at hdp
    simp [exec_command, hw, joinArgs, hdp]
  · intro hlt
    have hdp := do_pickup_success st.current_room st.items_held nm
      pre b post hpre hb hlt
    rw [← hitems] at hdp
    simp [exec_command, hw, joinArgs, hdp]

/-- C4 exercised concretely: with three items held the aura stays put;
with a free slot it is picked up. -/
theorem C4_pickup_capacity_witness :
    exec_command fullState ["pickup", "aura"]
      = (fullState, carrying_too_much_out)
    ∧ exec_command sampleState ["pickup", "aura"]
      = ({ sampleState with
            items := ([] ++ { auraItem with location := 999 }
              :: [rustyKey, lampItem]),
            items_held := sampleState.items_held + 1 },
         ["You picked up the " ++ auraItem.name ++ "."]) :=
  ⟨(C4_pickup_capacity fullState "aura" [heldRock, heldRope, heldTorch] []
      auraItem rfl (by decide) (by decide) (by decide)).1 (by decide),
   (C4_pickup_capacity sampleState "aura" [] [rustyKey, lampItem]
      auraItem rfl (by decide) (by decide) (by decide)).2 (by decide)⟩

end PhantomsGrasp

namespace PhantomsGrasp

/-- Claim C10: when several items satisfy the pickup match (in the
current room, same case-insensitive name) or the drop match (held,
same case-insensitive name), exactly the first matching item in load
order has its location changed; every other item is unchanged. -/
theorem C10_first_match (st : GameState)
    (hst : st.status = GameStatus.exploring) :
    (∀ nm pre b post,
      st.items = pre ++ b :: post →
      (∀ x ∈ pre, pickMatch st.current_room nm x = false) →
      pickMatch st.current_room nm b = true →
      st.items_held < INVENTORY_LIMIT →
      (exec_command st ["pickup", nm]).1.items
        = pre ++ { b with location := 999 } :: post)
    ∧ (∀ nm pre b post,
      st.items = pre ++ b :: post →
      (∀ x ∈ pre, dropMatch nm x = false) →
      dropMatch nm b = true →
      (exec_command st ["drop", nm]).1.items
        = pre ++ { b with location := st.current_room } :: post) := by
  have hw : ¬ st.status = GameStatus.won := by rw [hst]; simp
  constructor
  · intro nm pre b post hitems hpre hb hlt
    have hdp := do_pickup_success st.current_room st.items_held nm
      pre b post hpre hb hlt
    rw [← hitems] at hdp
    simp [exec_command, hw, joinArgs, hdp]
  · intro nm pre b post hitems hpre hb
    have hdd := do_drop_success st.current_room st.items_held nm
      pre b post hpre hb
    rw [← hitems] at hdd
    simp [exec_command, hw, joinArgs, hdd]

/-- C10 exercised concretely: with two held items named "aura", `drop
aura` moves only the first into the room and leaves the second held. -/
theorem C10_first_match_witness :
    (exec_command twoAuraState ["drop", "aura"]).1.items
      = [] ++ { dupAuraHeld with location := twoAuraState.current_room }
          :: [{ dupAuraRoom with location := 999 }] :=
  (C10_first_match twoAuraState rfl).2 "aura" []
    dupAuraHeld [{ dupAuraRoom with location := 999 }]
    (by decide) (by decide) (by decide)

end PhantomsGrasp

namespace PhantomsGrasp

/-- Claim C6 (amended): picking up an item present in the current room
and then dropping the same name, with a free inventory slot and with no
already-held item sharing the case-insensitive name, is the identity on
the item list, the held counter and the current room. -/
theorem C6_roundtrip (st : GameState) (nm : String)
    (hst : st.status = GameStatus.exploring)
    (hlt : st.items_held < INVENTORY_LIMIT)
    (hmatch : ∃ x ∈ st.items, pickMatch st.current_room nm x = true)
    (hnoheld : ∀ x ∈ st.items, x.location = 999 → strLower x.name ≠ nm) :
    (exec_command (exec_command st ["pickup", nm]).1 ["drop", nm]).1.items
        = st.items
    ∧ (exec_command (exec_command st ["pickup", nm]).1
        ["drop", nm]).1.items_held = st.items_held
    ∧ (exec_command (exec_command st ["pickup", nm]).1
        ["drop", nm]).1.current_room = st.current_room := by
  have hw : ¬ st.status = GameStatus.won := by rw [hst]; simp
  obtain ⟨pre, b, post, he, hc, hb⟩ := first_match_decomp _ _ hmatch
  have hbloc : b.location = st.current_room := ((pickMatch_iff _ _ _).1 hb).1
  have hbnm : strLower b.name = nm := ((pickMatch_iff _ _ _).1 hb).2
  have hdp := do_pickup_success st.current_room st.items_held nm
    pre b post hc hb hlt
  rw [← he] at hdp
  have hex1 : exec_command st ["pickup", nm]
      = ({ st with
            items := (pre ++ { b with location := 999 } :: post),
            items_held := st.items_held + 1 },
         ["You picked up the " ++ b.name ++ "."]) := by
    simp [exec_command, hw, joinArgs, hdp]
  rw [hex1]
  have hcd : ∀ x ∈ pre, dropMatch nm x = false := by
    intro x hx
    have hxmem : x ∈ st.items := by
      rw [he]; exact List.mem_append_left _ hx
    by_cases hl : x.location = 999
    · have hne := hnoheld x hxmem hl
      simp [dropMatch, hl, hne]
    · simp [dropMatch, hl]
  have hbd : dropMatch nm ({ b with location := 999 } : Item) = true := by
    simp [dropMatch, hbnm]
  have hdd := do_drop_success st.current_room (st.items_held + 1) nm
    pre ({ b with location := 999 } : Item) post hcd hbd
  have hbb : ({ { b with location := 999 } with
      location := st.current_room } : Item) = b := by
    rw [← hbloc]
  rw [hbb] at hdd
  simp [exec_command, hw, joinArgs, hdd, he]

/-- C6 as literally claimed fails on the code: with a held item named
"aura" and another "aura" in the room, pickup-then-drop swaps the two
items instead of restoring them (the drop releases the previously held
one). -/
theorem C6_roundtrip_counterexample :
    dupState.items_held < INVENTORY_LIMIT
    ∧ (∃ x ∈ dupState.items,
        pickMatch dupState.current_room "aura" x = true)
    ∧ ¬ ((exec_command (exec_command dupState ["pickup", "aura"]).1
          ["drop", "aura"]).1.items = dupState.items)
    ∧ ((exec_command (exec_command dupState ["pickup", "aura"]).1
          ["drop", "aura"]).1.items.getD 1 dupAuraRoom).location = 999 := by
  decide

/-- The amended C6 exercised concretely: in the sample world, pickup
then drop of "aura" restores items, counter and room. -/
theorem C6_roundtrip_witness :
    (exec_command (exec_command sampleState ["pickup", "aura"]).1
        ["drop", "aura"]).1.items = sampleState.items
    ∧ (exec_command (exec_command sampleState ["pickup", "aura"]).1
        ["drop", "aura"]).1.items_held = sampleState.items_held
    ∧ (exec_command (exec_command sampleState ["pickup", "aura"]).1
        ["drop", "aura"]).1.current_room = sampleState.current_room :=
  C6_roundtrip sampleState "aura" rfl (by decide) (by decide) (by decide)

end PhantomsGrasp

namespace PhantomsGrasp

/-- Claim C5: describing a room that is unlit while no held item
provides light prints only the darkness message; a lit room, or any
held light source, yields the full description: name, description, one
line per item in the room, then the passage list. -/
theorem C5_darkness (st : GameState) :
    ((st.game_map.getD st.current_room defaultRoom).is_lit = false →
      (∀ i ∈ st.items, ¬(i.provides_light = true ∧ i.location = 999)) →
      describe_room st
        = ["This is a dark room. You can\x27t see anything."])
    ∧ ((st.game_map.getD st.current_room defaultRoom).is_lit = true
        ∨ (∃ i ∈ st.items, i.provides_light = true ∧ i.location = 999) →
      describe_room st
        = [(st.game_map.getD st.current_room defaultRoom).name,
           (st.game_map.getD st.current_room defaultRoom).description]
          ++ (st.items.filter
                (fun item => item.location == st.current_room)).map
              (fun item => "There is a " ++ item.name ++ " here.")
          ++ [format_passages
                (st.game_map.getD st.current_room defaultRoom).exits]) := by
  constructor
  · intro hlit hnone
    have hpl : st.items.any
        (fun item => item.provides_light && item.location == 999) = false := by
      rw [List.any_eq_false]
      intro i hi
      have hni := hnone i hi
      simp only [Bool.and_eq_true, beq_iff_eq, not_and]
      intro hp hl
      exact hni ⟨hp, hl⟩
    have hlit2 : (st.game_map[st.current_room]?.getD defaultRoom).is_lit
        = false := by
      rw [← List.getD_eq_getElem?_getD]; exact hlit
    simp [describe_room, hlit2, hpl]
  · intro h
    rcases h with hlit | ⟨i, hi, hp, hl⟩
    · have hlit2 : (st.game_map[st.current_room]?.getD defaultRoom).is_lit
          = true := by
        rw [← List.getD_eq_getElem?_getD]; exact hlit
      simp [describe_room, hlit2]
    · have hpl : st.items.any
          (fun item => item.provides_light && item.location == 999)
            = true :=
        List.any_eq_true.2 ⟨i, hi, by simp [hp, hl]⟩
      simp [describe_room, hpl]

/-- C5 exercised concretely: the unlit cellar shows only the darkness
message; the lit entrance hall shows the full description. -/
theorem C5_darkness_witness :
    describe_room darkSpawnState
      = ["This is a dark room. You can\x27t see anything."]
    ∧ describe_room sampleState
      = [(sampleState.game_map.getD sampleState.current_room
            defaultRoom).name,
         (sampleState.game_map.getD sampleState.current_room
            defaultRoom).description]
        ++ (sampleState.items.filter
              (fun item => item.location == sampleState.current_room)).map
            (fun item => "There is a " ++ item.name ++ " here.")
        ++ [format_passages
              (sampleState.game_map.getD sampleState.current_room
                defaultRoom).exits] :=
  ⟨(C5_darkness darkSpawnState).1 (by decide) (by decide),
   (C5_darkness sampleState).2 (Or.inl (by decide))⟩

/-- Claim C7: `format_passages` agrees with the four-case
contract (no exits, one, two, three-or-more with comma-joined
all-but-last and " and " before the last), in exit-enumeration order. -/
theorem C7_format_passages (exits : List (String × Nat)) :
    format_passages exits = format_passages_spec exits := by
  rcases exits with _ | ⟨a, _ | ⟨b, _ | ⟨c, rest⟩⟩⟩
  · simp [format_passages, format_passages_spec]
  · simp [format_passages, format_passages_spec]
  · simp [format_passages, format_passages_spec]
  · have h1 : (((a :: b :: c :: rest).map (fun e => e.1)).length == 1)
        = false := by
      rw [beq_eq_false_iff_ne]
      simp
    have h2 : (((a :: b :: c :: rest).map (fun e => e.1)).length == 2)
        = false := by
      rw [beq_eq_false_iff_ne]
      simp
    simp [format_passages, format_passages_spec, h1, h2]

end PhantomsGrasp

namespace PhantomsGrasp

/-- Claim C8: every user-input error — empty command line, unknown
command word, missing required argument, unknown direction, and a valid
direction with no exit here — yields feedback text only, leaves the
whole session state unchanged, and in the `go` cases does not
re-describe the room. -/
theorem C8_input_errors (st : GameState)
    (hst : st.status = GameStatus.exploring) :
    (∀ line, tokenize line = [] →
      step st line = (st, ["Enter \x27help\x27 for help."]))
    ∧ (∀ cmd args, cmd ∉ (["look", "inventory", "pickup", "drop", "go",
        "leave", "help"] : List String) →
      exec_command st (cmd :: args)
        = (st, ["Unknown command. Enter \x27help\x27 for commands."]))
    ∧ exec_command st ["pickup"] = (st, ["Pickup what?"])
    ∧ exec_command st ["drop"] = (st, ["Drop what?"])
    ∧ exec_command st ["go"] = (st, ["Go where?"])
    ∧ (∀ dir, strLower dir ∉ VALID_DIRECTIONS →
      exec_command st ["go", dir]
        = (st, ["\x27" ++ strLower dir ++ "\x27 is not a valid direction."]))
    ∧ (∀ dir, strLower dir ∈ VALID_DIRECTIONS →
      lookup_exit (st.game_map.getD st.current_room defaultRoom).exits
        (strLower dir) = none →
      exec_command st ["go", dir]
        = (st, ["You can\x27t go " ++ strLower dir ++ " from here."])) := by
  refine ⟨?_, ?_, ?_, ?_, ?_, ?_, ?_⟩
  · intro line htok
    rw [step, htok]
    simp [exec_command, hst]
  · intro cmd args hcmd
    simp only [List.mem_cons, List.not_mem_nil, or_false, not_or] at hcmd
    obtain ⟨n1, n2, n3, n4, n5, n6, n7⟩ := hcmd
    simp [exec_command, hst, n1, n2, n3, n4, n5, n6, n7]
  · simp [exec_command, hst]
  · simp [exec_command, hst]
  · simp [exec_command, hst]
  · intro dir hdir
    have hg : get_new_room_number st.game_map st.current_room dir
        = (-1, ["\x27" ++ strLower dir ++ "\x27 is not a valid direction."]) := by
      rw [get_new_room_number_eq]
      simp [hdir]
    simp [exec_command, hst, hg]
  · intro dir hv hnx
    have hg : get_new_room_number st.game_map st.current_room dir
        = (-1, ["You can\x27t go " ++ strLower dir ++ " from here."]) := by
      rw [get_new_room_number_eq, hnx]
      simp [hv]
    simp [exec_command, hst, hg]

/-- C8 exercised concretely on the sample world: a blank line, an
unknown command, a missing argument, an unknown direction, and a
direction with no exit all leave the state untouched. -/
theorem C8_input_errors_witness :
    step sampleState "   " = (sampleState, ["Enter \x27help\x27 for help."])
    ∧ exec_command sampleState ["dance"]
      = (sampleState, ["Unknown command. Enter \x27help\x27 for commands."])
    ∧ exec_command sampleState ["pickup"] = (sampleState, ["Pickup what?"])
    ∧ exec_command sampleState ["go", "banana"]
      = (sampleState,
         ["\x27" ++ strLower "banana" ++ "\x27 is not a valid direction."])
    ∧ exec_command sampleState ["go", "down"]
      = (sampleState,
         ["You can\x27t go " ++ strLower "down" ++ " from here."]) :=
  ⟨(C8_input_errors sampleState rfl).1 "   " (by decide),
   (C8_input_errors sampleState rfl).2.1 "dance" [] (by decide),
   (C8_input_errors sampleState rfl).2.2.1,
   (C8_input_errors sampleState rfl).2.2.2.2.2.1 "banana" (by decide),
   (C8_input_errors sampleState rfl).2.2.2.2.2.2 "down" (by decide) (by decide)⟩

/-- Claim C9: the win check in `validate_exit` compares the item name
case-sensitively (exactly "Aura") while pickup matches names
case-insensitively; hence a session holding only a case-variant of
"Aura" (such as "aura") does not transition to `Won` on `leave` at the
entrance. -/
theorem C9_case_sensitivity :
    (∀ items : List Item,
      validate_exit items = true
        ↔ ∃ i ∈ items, i.name = "Aura" ∧ i.location = 999)
    ∧ (∀ cur nm x, pickMatch cur nm x = true
        ↔ x.location = cur ∧ strLower x.name = nm)
    ∧ (∀ st : GameState, st.status = GameStatus.exploring →
      st.current_room = st.entrance_room →
      (∃ i ∈ st.items, i.location = 999 ∧ strLower i.name = "aura"
        ∧ i.name ≠ "Aura") →
      (∀ i ∈ st.items, i.location = 999 → i.name ≠ "Aura") →
      (exec_command st ["leave"]).1 = st
        ∧ (exec_command st ["leave"]).1.status = GameStatus.exploring) := by
  refine ⟨validate_exit_iff, pickMatch_iff, ?_⟩
  intro st hst hat hex hnone
  have hval : validate_exit st.items = false := by
    rw [← Bool.not_eq_true, validate_exit_iff]
    rintro ⟨i, hi, hn, hl⟩
    exact hnone i hi hl hn
  have hleave : exec_command st ["leave"]
      = (st, ["You don\x27t have enough aura to leave! Press Ctrl-C to force quit and lose."]) := by
    simp [exec_command, hst, hat, hval]
  rw [hleave]
  exact ⟨rfl, hst⟩

/-- C9 exercised concretely: holding only the lower-case "aura",
`leave` at the entrance leaves the session exploring and unchanged. -/
theorem C9_case_sensitivity_witness :
    (exec_command dupState ["leave"]).1 = dupState
    ∧ (exec_command dupState ["leave"]).1.status
        = GameStatus.exploring :=
  C9_case_sensitivity.2.2 dupState rfl rfl (by decide) (by decide)

end PhantomsGrasp
